import Mathlib

/-!
Verification of the fungible-token ledger in `src/ft/src/lib.rs`
(a NEAR contract built on `near_contract_standards::FungibleToken`).

Embedding notes.

* `u128` values are modelled as `Nat` together with the bound
  `U128_MAX = 2^128 - 1`.  NEAR fungible-token contracts are compiled with
  `overflow-checks = true` (the profile file is not part of `src/`; the spec's
  overflow invariant — "attempting to exceed the 128-bit maximum leaves state
  unchanged" — fixes the checked, panicking semantics), so the `+=` on an
  account balance and the `checked_add` on `total_supply` both abort the call
  when the mathematical sum exceeds `U128_MAX`.
* A panic (`assert!`, `env::panic`, arithmetic overflow) aborts the whole
  NEAR function call and rolls back every state write of that call; we model
  a call as `Except MintError (State × Effects)`, and `runMint` gives the
  observable post-state: the new state on success, the unchanged pre-state on
  any error.
* The account map (`LookupMap` keyed by account id) is modelled as an
  association list whose reads and writes touch the first matching key.
* `env::storage_usage` is the host's byte meter for the contract's persistent
  state.  Its value on this contract is a constant base (metadata etc.) plus
  the bytes of the account-map entries; the per-entry byte size is a
  host/serialization constant for a given key, modelled by the abstract
  function `entryBytes : AccountId → Nat` in the environment.  Only the
  before/after difference is ever used by the code, so the base cancels.
* `log!(fmt, args...)` renders the format string by substituting each `{}`
  placeholder with the next argument; `substFmt` models that expansion.
-/

abbrev AccountId := String

abbrev Balance := Nat

/-- Maximum value representable in an unsigned 128-bit integer. -/
def U128_MAX : Nat := 2 ^ 128 - 1

/-- `self.token.accounts.get(&id)` on the association-list model of the
`LookupMap`: the value at the first matching key, if any. -/
def lookupBalance : List (AccountId × Balance) → AccountId → Option Balance
  | [], _ => none
  | (k, v) :: rest, id => if k = id then some v else lookupBalance rest id

/-- `self.token.accounts.insert(&id, &v)`: overwrite the first entry with the
given key, or append a new entry when the key is absent. -/
def insertBalance : List (AccountId × Balance) → AccountId → Balance →
    List (AccountId × Balance)
  | [], id, v => [(id, v)]
  | (k, w) :: rest, id, v =>
      if k = id then (id, v) :: rest else (k, w) :: insertBalance rest id v

/-- Sum of all account balances in the map. -/
def sumBalances (accounts : List (AccountId × Balance)) : Nat :=
  (accounts.map Prod.snd).sum

/-- State of the `FungibleToken` ledger: the account map and the running
total supply. -/
structure FungibleToken where
  accounts : List (AccountId × Balance)
  total_supply : Balance
  deriving Repr, DecidableEq

/-- Call environment for one invocation of `ft_mint`: the host-supplied
quantities read through `env::*`.  `entryBytes k` is the storage footprint,
in bytes, of the account-map entry with key `k` (key plus serialized `u128`
balance; a host/serialization constant per key). -/
structure Env where
  storage_byte_cost : Nat
  attached_deposit : Nat
  predecessor_account_id : AccountId
  entryBytes : AccountId → Nat

/-- Value of `env::storage_usage()` contributed by the account map: the sum
of the entry footprints.  (The constant base contributed by the rest of the
contract state cancels in every before/after difference the code takes.) -/
def storageUsage (entryBytes : AccountId → Nat) :
    List (AccountId × Balance) → Nat
  | [] => 0
  | (k, _) :: rest => entryBytes k + storageUsage entryBytes rest

/-- Ways one call to `ft_mint` can panic (each aborts and rolls back). -/
inductive MintError where
  /-- panic of `assert!(amount.0 <= 1000, "Cannot mint more than 1000 tokens")` -/
  | capExceeded
  /-- arithmetic-overflow panic of `amount_for_account += amount.0` -/
  | balanceOverflow
  /-- panic of `env::panic(b"Total supply overflow")` -/
  | supplyOverflow
  /-- panic of `assert!(required_cost <= attached_deposit, "Must attach ...")` -/
  | insufficientDeposit
  deriving Repr, DecidableEq

/-- Externally visible effects of one successful `ft_mint` call: the refund
`Promise` scheduled to a recipient (if any) and the log lines emitted. -/
structure MintEffects where
  refundTransfer : Option (AccountId × Nat)
  logs : List String
  deriving Repr, DecidableEq

/-- Shallow embedding of `Contract::ft_mint` (src/ft/src/lib.rs lines
86–124), statement by statement:

1. `assert!(amount.0 <= 1000, ...)`;
2. `initial_storage_usage = env::storage_usage()`;
3. `amount_for_account = accounts.get(&receiver_id).unwrap_or(0)`, then
   `amount_for_account += amount.0` (checked `u128` addition);
4. `accounts.insert(&receiver_id, &amount_for_account)`;
5. `total_supply = total_supply.checked_add(amount.0).unwrap_or_else(panic)`;
6. `storage_used = env::storage_usage() - initial_storage_usage`;
7. `required_cost = env::storage_byte_cost() * storage_used`;
8. `assert!(required_cost <= attached_deposit, ...)`;
9. `refund = attached_deposit - required_cost`; if `refund > 1`, schedule
   `Promise::new(env::predecessor_account_id()).transfer(refund)`.

The function emits no log line and no event. -/
def ft_mint (env : Env) (st : FungibleToken) (receiver_id : AccountId)
    (amount : Nat) : Except MintError (FungibleToken × MintEffects) :=
  if 1000 < amount then .error .capExceeded
  else
    let initial_storage_usage := storageUsage env.entryBytes st.accounts
    let amount_for_account := (lookupBalance st.accounts receiver_id).getD 0 + amount
    if U128_MAX < amount_for_account then .error .balanceOverflow
    else
      let accounts1 := insertBalance st.accounts receiver_id amount_for_account
      if U128_MAX < st.total_supply + amount then .error .supplyOverflow
      else
        let total_supply1 := st.total_supply + amount
        let storage_used := storageUsage env.entryBytes accounts1 - initial_storage_usage
        let required_cost := env.storage_byte_cost * storage_used
        if env.attached_deposit < required_cost then .error .insufficientDeposit
        else
          let refund := env.attached_deposit - required_cost
          .ok ({ accounts := accounts1, total_supply := total_supply1 },
               { refundTransfer :=
                   if 1 < refund then some (env.predecessor_account_id, refund)
                   else none,
                 logs := [] })

/-- Observable ledger state after a call to `ft_mint`: the new state on
success; the unchanged pre-state on any panic, since a NEAR panic rolls the
whole call back. -/
def runMint (env : Env) (st : FungibleToken) (receiver_id : AccountId)
    (amount : Nat) : FungibleToken :=
  match ft_mint env st receiver_id amount with
  | .ok (st', _) => st'
  | .error _ => st

/-- Storage delta, in bytes, that the `ft_mint` insert produces: the value
of `storage_used` at line 111 when execution reaches it. -/
def mintStorageDelta (env : Env) (st : FungibleToken) (receiver_id : AccountId)
    (amount : Nat) : Nat :=
  storageUsage env.entryBytes
      (insertBalance st.accounts receiver_id
        ((lookupBalance st.accounts receiver_id).getD 0 + amount)) -
    storageUsage env.entryBytes st.accounts

/-- `required_cost` of line 112: storage delta times `env::storage_byte_cost`. -/
def requiredCost (env : Env) (st : FungibleToken) (receiver_id : AccountId)
    (amount : Nat) : Nat :=
  env.storage_byte_cost * mintStorageDelta env st receiver_id amount

/-- Opening curly-brace character. -/
def lbrace : Char := Char.ofNat 123

/-- Closing curly-brace character. -/
def rbrace : Char := Char.ofNat 125

/-- Expansion of a `log!`/`format!` template: each `\x7b\x7d` placeholder is
replaced, left to right, by the next argument's characters; all other
characters are copied through. -/
def substFmt : List Char → List String → List Char
  | [], _ => []
  | [c], _ => [c]
  | c :: c2 :: rest, args =>
      if c = lbrace ∧ c2 = rbrace then
        match args with
        | a :: args2 => a.data ++ substFmt rest args2
        | [] => c :: c2 :: rest
      else c :: substFmt (c2 :: rest) args

/-- Render a `log!` call: template expanded against the arguments. -/
def logLine (template : String) (args : List String) : String :=
  String.mk (substFmt template.data args)

/-- The `on_account_closed` hook (src/ft/src/lib.rs lines 78–80):
`log!("Closed @\x7b\x7d with \x7b\x7d", account_id, balance)`. -/
def on_account_closed (account_id : AccountId) (balance : Balance) : String :=
  logLine "Closed @\x7b\x7d with \x7b\x7d" [account_id, toString balance]

/-- The `on_tokens_burned` hook (src/ft/src/lib.rs lines 82–84):
`log!("Account @\x7b\x7d burned \x7b\x7d", account_id, amount)`. -/
def on_tokens_burned (account_id : AccountId) (amount : Balance) : String :=
  logLine "Account @\x7b\x7d burned \x7b\x7d" [account_id, toString amount]

/-- Fixed concrete environment used by witnesses: zero storage price, no
deposit attached. -/
def envFree : Env :=
  { storage_byte_cost := 0, attached_deposit := 0,
    predecessor_account_id := "caller", entryBytes := fun _ => 40 }

/-- Concrete environment with a nonzero storage price and a deposit. -/
def envPaid : Env :=
  { storage_byte_cost := 3, attached_deposit := 500,
    predecessor_account_id := "caller", entryBytes := fun _ => 40 }

/-- Environment whose attached deposit cannot cover a fresh entry. -/
def envPoor : Env :=
  { storage_byte_cost := 3, attached_deposit := 10,
    predecessor_account_id := "caller", entryBytes := fun _ => 40 }

/-- Replacing the entry at a key with its looked-up value (defaulting to 0)
plus `a` — or appending `(key, 0 + a)` when the key is absent — raises the
sum of balances by exactly `a`. -/
theorem sumBalances_insertBalance (l : List (AccountId × Balance))
    (id : AccountId) (a : Nat) :
    sumBalances (insertBalance l id ((lookupBalance l id).getD 0 + a)) =
      sumBalances l + a := by
  induction l with
  | nil => simp [insertBalance, lookupBalance, sumBalances]
  | cons hd tl ih =>
      obtain ⟨k, v⟩ := hd
      by_cases hk : k = id
      · subst hk
        simp [insertBalance, lookupBalance, sumBalances]
        omega
      · simp only [insertBalance, lookupBalance, if_neg hk, sumBalances,
          List.map_cons, List.sum_cons] at ih ⊢
        omega

/-- Looking up the key just written returns the written value. -/
theorem lookupBalance_insertBalance_self (l : List (AccountId × Balance))
    (id : AccountId) (w : Balance) :
    lookupBalance (insertBalance l id w) id = some w := by
  induction l with
  | nil => simp [insertBalance, lookupBalance]
  | cons hd tl ih =>
      obtain ⟨k, v⟩ := hd
      by_cases hk : k = id
      · subst hk
        simp [insertBalance, lookupBalance]
      · simp [insertBalance, lookupBalance, hk, ih]

/-- Inversion of a successful `ft_mint` run: every guard passed and the
resulting state and effects have the shape the code computes. -/
theorem ft_mint_ok_shape (env : Env) (st : FungibleToken) (r : AccountId)
    (a : Nat) (st' : FungibleToken) (eff : MintEffects)
    (hok : ft_mint env st r a = .ok (st', eff)) :
    a ≤ 1000 ∧
    (lookupBalance st.accounts r).getD 0 + a ≤ U128_MAX ∧
    st.total_supply + a ≤ U128_MAX ∧
    requiredCost env st r a ≤ env.attached_deposit ∧
    st' = { accounts := insertBalance st.accounts r
              ((lookupBalance st.accounts r).getD 0 + a),
            total_supply := st.total_supply + a } ∧
    eff = { refundTransfer :=
              if 1 < env.attached_deposit - requiredCost env st r a then
                some (env.predecessor_account_id,
                      env.attached_deposit - requiredCost env st r a)
              else none,
            logs := [] } := by
  simp only [ft_mint] at hok
  simp only [requiredCost, mintStorageDelta]
  split_ifs at hok with h1 h2 h3 h4 h5
  · simp only [Except.ok.injEq, Prod.mk.injEq] at hok
    obtain ⟨hst, heff⟩ := hok
    subst hst
    subst heff
    exact ⟨not_lt.mp h1, not_lt.mp h2, not_lt.mp h3, not_lt.mp h4, rfl,
      by rw [if_pos h5]⟩
  · simp only [Except.ok.injEq, Prod.mk.injEq] at hok
    obtain ⟨hst, heff⟩ := hok
    subst hst
    subst heff
    exact ⟨not_lt.mp h1, not_lt.mp h2, not_lt.mp h3, not_lt.mp h4, rfl,
      by rw [if_neg h5]⟩

/-- When every guard of `ft_mint` holds, the call succeeds with the state
and effects the code computes. -/
theorem ft_mint_ok_of (env : Env) (st : FungibleToken) (r : AccountId)
    (a : Nat)
    (h1 : a ≤ 1000)
    (h2 : (lookupBalance st.accounts r).getD 0 + a ≤ U128_MAX)
    (h3 : st.total_supply + a ≤ U128_MAX)
    (h4 : requiredCost env st r a ≤ env.attached_deposit) :
    ft_mint env st r a =
      .ok ({ accounts := insertBalance st.accounts r
               ((lookupBalance st.accounts r).getD 0 + a),
             total_supply := st.total_supply + a },
           { refundTransfer :=
               if 1 < env.attached_deposit - requiredCost env st r a then
                 some (env.predecessor_account_id,
                       env.attached_deposit - requiredCost env st r a)
               else none,
             logs := [] }) := by
  simp only [requiredCost, mintStorageDelta] at h4 ⊢
  simp only [ft_mint]
  rw [if_neg (not_lt.mpr h1), if_neg (not_lt.mpr h2), if_neg (not_lt.mpr h3),
    if_neg (not_lt.mpr h4)]

/-- A panicking `ft_mint` leaves the observable state unchanged. -/
theorem runMint_error (env : Env) (st : FungibleToken) (r : AccountId)
    (a : Nat) (e : MintError) (h : ft_mint env st r a = .error e) :
    runMint env st r a = st := by
  simp [runMint, h]

/-- Expansion of the closed-account log template against two arguments. -/
theorem logLine_closed_eq (a s : String) :
    logLine "Closed @\x7b\x7d with \x7b\x7d" [a, s] =
      "Closed @" ++ a ++ " with " ++ s := by
  obtain ⟨la⟩ := a
  obtain ⟨ls⟩ := s
  apply String.ext
  show "Closed @".data ++ (la ++ (" with ".data ++ (ls ++ []))) =
      ((("Closed @".data ++ la) ++ " with ".data) ++ ls)
  simp

/-- Expansion of the burned-tokens log template against two arguments. -/
theorem logLine_burned_eq (a s : String) :
    logLine "Account @\x7b\x7d burned \x7b\x7d" [a, s] =
      "Account @" ++ a ++ " burned " ++ s := by
  obtain ⟨la⟩ := a
  obtain ⟨ls⟩ := s
  apply String.ext
  show "Account @".data ++ (la ++ (" burned ".data ++ (ls ++ []))) =
      ((("Account @".data ++ la) ++ " burned ".data) ++ ls)
  simp

/-- C1: in every state whose `total_supply` equals the sum of all account
balances, a successful `ft_mint` yields a state whose `total_supply` again
equals the sum of all account balances. -/
theorem ft_mint_preserves_supply_invariant (env : Env) (st : FungibleToken)
    (r : AccountId) (a : Nat) (st' : FungibleToken) (eff : MintEffects)
    (hinv : st.total_supply = sumBalances st.accounts)
    (hok : ft_mint env st r a = .ok (st', eff)) :
    st'.total_supply = sumBalances st'.accounts := by
  obtain ⟨-, -, -, -, hst, -⟩ := ft_mint_ok_shape env st r a st' eff hok
  subst hst
  simp [sumBalances_insertBalance, hinv]

/-- Witness for C1: minting 7 to absent `bob` over a ledger holding 5 keeps
`total_supply` equal to the sum of balances. -/
theorem ft_mint_preserves_supply_invariant_witness :
    (⟨[("alice", 5)], 5⟩ : FungibleToken).total_supply =
        sumBalances [("alice", 5)] ∧
    ft_mint envFree ⟨[("alice", 5)], 5⟩ "bob" 7 =
      .ok (⟨[("alice", 5), ("bob", 7)], 12⟩,
           { refundTransfer := none, logs := [] }) ∧
    (⟨[("alice", 5), ("bob", 7)], 12⟩ : FungibleToken).total_supply =
      sumBalances [("alice", 5), ("bob", 7)] :=
  ⟨rfl, rfl,
   ft_mint_preserves_supply_invariant envFree ⟨[("alice", 5)], 5⟩ "bob" 7
     ⟨[("alice", 5), ("bob", 7)], 12⟩ { refundTransfer := none, logs := [] }
     rfl rfl⟩

/-- C2 as stated is refuted: with `total_supply = U128_MAX` and
`amount = 2000`, `total_supply + amount` overflows, yet the call fails with
the cap error (the `assert!(amount.0 <= 1000)` runs first), not with the
supply-overflow error. -/
theorem ft_mint_supply_overflow_error_counterexample :
    U128_MAX < (⟨[], U128_MAX⟩ : FungibleToken).total_supply + 2000 ∧
    ft_mint envFree ⟨[], U128_MAX⟩ "x" 2000 = .error .capExceeded ∧
    MintError.capExceeded ≠ MintError.supplyOverflow :=
  ⟨Nat.lt_add_of_pos_right (by norm_num), rfl, by decide⟩

/-- C2 (amended): whenever `total_supply + amount` exceeds `U128_MAX` the
call panics and the observable state is unchanged; the panic is the
supply-overflow error whenever the cap check and the receiver-balance
addition pass. -/
theorem ft_mint_supply_overflow_aborts (env : Env) (st : FungibleToken)
    (r : AccountId) (a : Nat) (h : U128_MAX < st.total_supply + a) :
    (∃ e, ft_mint env st r a = .error e) ∧
    runMint env st r a = st ∧
    (a ≤ 1000 → (lookupBalance st.accounts r).getD 0 + a ≤ U128_MAX →
      ft_mint env st r a = .error .supplyOverflow) := by
  cases hres : ft_mint env st r a with
  | error e =>
      refine ⟨⟨e, rfl⟩, runMint_error env st r a e hres, ?_⟩
      intro hcap hbal
      rw [← hres]
      simp only [ft_mint]
      rw [if_neg (not_lt.mpr hcap), if_neg (not_lt.mpr hbal), if_pos h]
  | ok p =>
      obtain ⟨st', eff⟩ := p
      obtain ⟨-, -, hsup, -⟩ := ft_mint_ok_shape env st r a st' eff hres
      exact absurd h (not_lt.mpr hsup)

/-- Witness for the amended C2: minting 1 over a ledger at `U128_MAX` total
supply panics with the supply-overflow error and leaves the state as it was. -/
theorem ft_mint_supply_overflow_aborts_witness :
    (∃ e, ft_mint envFree ⟨[], U128_MAX⟩ "x" 1 = .error e) ∧
    runMint envFree ⟨[], U128_MAX⟩ "x" 1 = ⟨[], U128_MAX⟩ ∧
    (1 ≤ 1000 →
      (lookupBalance (⟨[], U128_MAX⟩ : FungibleToken).accounts "x").getD 0 + 1 ≤
        U128_MAX →
      ft_mint envFree ⟨[], U128_MAX⟩ "x" 1 = .error .supplyOverflow) :=
  ft_mint_supply_overflow_aborts envFree ⟨[], U128_MAX⟩ "x" 1
    (Nat.lt_succ_self U128_MAX)

/-- C3: if the attached deposit is below the measured storage delta times
the per-byte cost, the call panics and the observable post-call state equals
the pre-call state (the optimistic ledger write is rolled back). -/
theorem ft_mint_insufficient_deposit_rolls_back (env : Env)
    (st : FungibleToken) (r : AccountId) (a : Nat)
    (h : env.attached_deposit < requiredCost env st r a) :
    (∃ e, ft_mint env st r a = .error e) ∧ runMint env st r a = st := by
  cases hres : ft_mint env st r a with
  | error e => exact ⟨⟨e, rfl⟩, runMint_error env st r a e hres⟩
  | ok p =>
      obtain ⟨st', eff⟩ := p
      obtain ⟨-, -, -, hdep, -⟩ := ft_mint_ok_shape env st r a st' eff hres
      omega

/-- Witness for C3: a 10-unit deposit cannot cover the 120-unit cost of a
fresh 40-byte entry at 3 units per byte, so the mint aborts unchanged. -/
theorem ft_mint_insufficient_deposit_rolls_back_witness :
    (∃ e, ft_mint envPoor ⟨[], 0⟩ "x" 5 = .error e) ∧
    runMint envPoor ⟨[], 0⟩ "x" 5 = ⟨[], 0⟩ :=
  ft_mint_insufficient_deposit_rolls_back envPoor ⟨[], 0⟩ "x" 5 (by decide)

/-- C4 as stated is refuted: with the receiver's stored balance already at
`U128_MAX`, a mint of 1 satisfies the cap, the supply-overflow condition and
the deposit condition, yet the balance addition itself overflows and the
call panics instead of increasing the balance. -/
theorem ft_mint_success_adds_counterexample :
    1 ≤ 1000 ∧
    (⟨[("a", U128_MAX)], 0⟩ : FungibleToken).total_supply + 1 ≤ U128_MAX ∧
    requiredCost envFree ⟨[("a", U128_MAX)], 0⟩ "a" 1 ≤
      envFree.attached_deposit ∧
    ft_mint envFree ⟨[("a", U128_MAX)], 0⟩ "a" 1 = .error .balanceOverflow :=
  ⟨by decide, by decide, by decide, rfl⟩

/-- C4 (amended): under the cap, no overflow of the receiver's balance, no
supply overflow, and sufficient deposit, `ft_mint` adds exactly `amount` to
the receiver's balance and to `total_supply`; an absent receiver is created
and ends at exactly `amount`. -/
theorem ft_mint_success_adds (env : Env) (st : FungibleToken) (r : AccountId)
    (a : Nat)
    (hcap : a ≤ 1000)
    (hbal : (lookupBalance st.accounts r).getD 0 + a ≤ U128_MAX)
    (hsup : st.total_supply + a ≤ U128_MAX)
    (hdep : requiredCost env st r a ≤ env.attached_deposit) :
    ∃ st' eff, ft_mint env st r a = .ok (st', eff) ∧
      lookupBalance st'.accounts r =
        some ((lookupBalance st.accounts r).getD 0 + a) ∧
      st'.total_supply = st.total_supply + a ∧
      (lookupBalance st.accounts r = none →
        lookupBalance st'.accounts r = some a) := by
  refine ⟨_, _, ft_mint_ok_of env st r a hcap hbal hsup hdep, ?_, rfl, ?_⟩
  · exact lookupBalance_insertBalance_self st.accounts r
      ((lookupBalance st.accounts r).getD 0 + a)
  · intro habs
    show lookupBalance
        (insertBalance st.accounts r ((lookupBalance st.accounts r).getD 0 + a))
        r = some a
    rw [lookupBalance_insertBalance_self, habs]
    simp

/-- Witness for the amended C4: minting 5 to absent `x` with a 500-unit
deposit ends with balance 5 and total supply 5. -/
theorem ft_mint_success_adds_witness :
    ∃ st' eff, ft_mint envPaid ⟨[], 0⟩ "x" 5 = .ok (st', eff) ∧
      lookupBalance st'.accounts "x" =
        some ((lookupBalance ([] : List (AccountId × Balance)) "x").getD 0 + 5) ∧
      st'.total_supply = (⟨[], 0⟩ : FungibleToken).total_supply + 5 ∧
      (lookupBalance ([] : List (AccountId × Balance)) "x" = none →
        lookupBalance st'.accounts "x" = some 5) :=
  ft_mint_success_adds envPaid ⟨[], 0⟩ "x" 5 (by decide) (by decide) (by decide)
    (by decide)

/-- C5: every successful `ft_mint` consumed exactly the measured storage
delta times the per-byte cost, and the refund — attached deposit minus that
cost, paid to the caller — is scheduled exactly when it exceeds 1. -/
theorem ft_mint_refund_correct (env : Env) (st : FungibleToken)
    (r : AccountId) (a : Nat) (st' : FungibleToken) (eff : MintEffects)
    (hok : ft_mint env st r a = .ok (st', eff)) :
    requiredCost env st r a ≤ env.attached_deposit ∧
    eff.refundTransfer =
      (if 1 < env.attached_deposit - requiredCost env st r a then
        some (env.predecessor_account_id,
              env.attached_deposit - requiredCost env st r a)
      else none) := by
  obtain ⟨-, -, -, hdep, -, heff⟩ := ft_mint_ok_shape env st r a st' eff hok
  subst heff
  exact ⟨hdep, rfl⟩

/-- Witness for C5: with cost 3 per byte, a 40-byte delta and a 500-unit
deposit, the refund scheduled to the caller is exactly 500 − 120 = 380. -/
theorem ft_mint_refund_correct_witness :
    requiredCost envPaid ⟨[], 0⟩ "x" 5 ≤ envPaid.attached_deposit ∧
    ({ refundTransfer := some ("caller", 380), logs := [] } :
        MintEffects).refundTransfer =
      (if 1 < envPaid.attached_deposit - requiredCost envPaid ⟨[], 0⟩ "x" 5 then
        some (envPaid.predecessor_account_id,
              envPaid.attached_deposit - requiredCost envPaid ⟨[], 0⟩ "x" 5)
      else none) :=
  ft_mint_refund_correct envPaid ⟨[], 0⟩ "x" 5 ⟨[("x", 5)], 5⟩
    { refundTransfer := some ("caller", 380), logs := [] } rfl

/-- C6: a mint of more than 1000 fails with the cap error and the observable
state is unchanged — the `assert!` runs before any ledger write. -/
theorem ft_mint_cap_violation (env : Env) (st : FungibleToken)
    (r : AccountId) (a : Nat) (h : 1000 < a) :
    ft_mint env st r a = .error .capExceeded ∧ runMint env st r a = st := by
  have hft : ft_mint env st r a = .error .capExceeded := by
    simp only [ft_mint]
    rw [if_pos h]
  exact ⟨hft, runMint_error env st r a _ hft⟩

/-- Witness for C6: minting 1001 fails with the cap error, state unchanged. -/
theorem ft_mint_cap_violation_witness :
    ft_mint envFree ⟨[("a", 3)], 3⟩ "a" 1001 = .error .capExceeded ∧
    runMint envFree ⟨[("a", 3)], 3⟩ "a" 1001 = ⟨[("a", 3)], 3⟩ :=
  ft_mint_cap_violation envFree ⟨[("a", 3)], 3⟩ "a" 1001 (by decide)

/-- C7 as stated is refuted: `ft_mint` contains no `amount > 0` check, so a
call with amount 0 is not rejected — here it succeeds outright, registering
the receiver with balance 0. -/
theorem ft_mint_zero_amount_counterexample :
    ft_mint envFree ⟨[], 0⟩ "x" 0 =
      .ok (⟨[("x", 0)], 0⟩, { refundTransfer := none, logs := [] }) := rfl

/-- C7 (amended): `ft_mint` performs no `amount > 0` validation: a
zero-amount call passes every check and, with sufficient attached deposit
(over a state within `u128` range), succeeds with `total_supply` unchanged. -/
theorem ft_mint_zero_amount_accepted (env : Env) (st : FungibleToken)
    (r : AccountId)
    (hbal : (lookupBalance st.accounts r).getD 0 ≤ U128_MAX)
    (hsup : st.total_supply ≤ U128_MAX)
    (hdep : requiredCost env st r 0 ≤ env.attached_deposit) :
    ∃ st' eff, ft_mint env st r 0 = .ok (st', eff) ∧
      st'.total_supply = st.total_supply := by
  exact ⟨_, _, ft_mint_ok_of env st r 0 (Nat.zero_le 1000)
    (by simpa using hbal) (by simpa using hsup) hdep, rfl⟩

/-- Witness for the amended C7: a zero-amount mint to `x` over a one-account
ledger succeeds and leaves `total_supply` at 3. -/
theorem ft_mint_zero_amount_accepted_witness :
    ∃ st' eff, ft_mint envPaid ⟨[("a", 3)], 3⟩ "x" 0 = .ok (st', eff) ∧
      st'.total_supply = (⟨[("a", 3)], 3⟩ : FungibleToken).total_supply :=
  ft_mint_zero_amount_accepted envPaid ⟨[("a", 3)], 3⟩ "x" (by decide)
    (by decide) (by decide)

/-- C8 as stated is refuted: this successful `ft_mint` call emits no log
line and schedules nothing but the refund transfer — there is no
`Minted` notification anywhere in its effects. -/
theorem ft_mint_emits_no_minted_counterexample :
    ft_mint envPaid ⟨[], 0⟩ "x" 5 =
      .ok (⟨[("x", 5)], 5⟩,
           { refundTransfer := some ("caller", 380), logs := [] }) := rfl

/-- C8 (amended): a successful `ft_mint` emits no log line at all; its only
scheduled effect is the optional refund transfer. -/
theorem ft_mint_emits_nothing (env : Env) (st : FungibleToken)
    (r : AccountId) (a : Nat) (st' : FungibleToken) (eff : MintEffects)
    (hok : ft_mint env st r a = .ok (st', eff)) :
    eff.logs = [] := by
  obtain ⟨-, -, -, -, -, heff⟩ := ft_mint_ok_shape env st r a st' eff hok
  subst heff
  rfl

/-- Witness for the amended C8: the effects of a concrete successful mint
carry an empty log list. -/
theorem ft_mint_emits_nothing_witness :
    ({ refundTransfer := none, logs := [] } : MintEffects).logs =
      ([] : List String) :=
  ft_mint_emits_nothing envFree ⟨[], 0⟩ "x" 5 ⟨[("x", 5)], 5⟩
    { refundTransfer := none, logs := [] } rfl

/-- C9: `on_account_closed` logs exactly `Closed @\x7baccount\x7d with
\x7bbalance\x7d` and `on_tokens_burned` logs exactly `Account @\x7baccount\x7d
burned \x7bamount\x7d`. -/
theorem hooks_log_exact_lines (account : AccountId) (balance amount : Balance) :
    on_account_closed account balance =
      "Closed @" ++ account ++ " with " ++ toString balance ∧
    on_tokens_burned account amount =
      "Account @" ++ account ++ " burned " ++ toString amount :=
  ⟨logLine_closed_eq account (toString balance),
   logLine_burned_eq account (toString amount)⟩

/-- C10: a zero-amount mint to an absent receiver with sufficient deposit
succeeds, inserts the receiver with balance 0, and leaves `total_supply`
unchanged — it acts as an account registration. -/
theorem ft_mint_zero_registers_account (env : Env) (st : FungibleToken)
    (r : AccountId)
    (habs : lookupBalance st.accounts r = none)
    (hsup : st.total_supply ≤ U128_MAX)
    (hdep : requiredCost env st r 0 ≤ env.attached_deposit) :
    ∃ st' eff, ft_mint env st r 0 = .ok (st', eff) ∧
      lookupBalance st'.accounts r = some 0 ∧
      st'.total_supply = st.total_supply := by
  refine ⟨_, _, ft_mint_ok_of env st r 0 (Nat.zero_le 1000) ?_
    (by simpa using hsup) hdep, ?_, rfl⟩
  · rw [habs]
    exact Nat.zero_le U128_MAX
  · show lookupBalance
        (insertBalance st.accounts r ((lookupBalance st.accounts r).getD 0 + 0))
        r = some 0
    rw [lookupBalance_insertBalance_self, habs]
    rfl

/-- Witness for C10: a zero-amount mint to absent `x` over a one-account
ledger registers `x` at balance 0 and keeps `total_supply` at 3. -/
theorem ft_mint_zero_registers_account_witness :
    ∃ st' eff, ft_mint envPaid ⟨[("a", 3)], 3⟩ "x" 0 = .ok (st', eff) ∧
      lookupBalance st'.accounts "x" = some 0 ∧
      st'.total_supply = (⟨[("a", 3)], 3⟩ : FungibleToken).total_supply :=
  ft_mint_zero_registers_account envPaid ⟨[("a", 3)], 3⟩ "x" (by decide)
    (by decide) (by decide)
